import Mathlib

/-
Verification of the name-resolution and request-validation layer of an HTTP
facade over managed-queue (SQS), pub/sub (SNS) and key-value (DynamoDB)
services.

The embedding models the Python sources:
  app/utils/http.py   (get_json_body, require_query_params)
  app/utils/aws.py    (get_queue_url_by_name, resolve_queue_arn_by_name,
                       client_error_response)
  app/routes/sqs.py   (send_message, receive_messages, delete_message,
                       purge_queue)
  app/routes/sns.py   (resolve_topic_arn_by_name, create_topic,
                       publish_message, create_subscription)
  app/routes/dynamodb.py (get_item)

Handlers are modelled as pure functions from a backend state and the request
data (query-parameter association list, optional parsed JSON body) to the
HTTP response together with the list of backend calls performed, in order.
Python exceptions that the route-level try/except converts to HTTP 500 are
modelled by returning the 500 response at the point where the exception
would be raised.
-/

namespace ApiLocalStack

/-- A parsed JSON value, as produced by Python json parsing.  Numbers are
modelled as integers (no claim depends on float values).  Object fields are
an association list with distinct keys, in insertion order, as in a Python
dict obtained from json parsing. -/
inductive Json where
  | null
  | bool (b : Bool)
  | num (n : Int)
  | str (s : String)
  | arr (elems : List Json)
  | obj (fields : List (String × Json))

/-- Python truthiness of a JSON value: None, False, 0, the empty string,
the empty list and the empty dict are falsy; everything else is truthy. -/
def Json.truthy : Json → Bool
  | .null => false
  | .bool b => b
  | .num n => n != 0
  | .str s => s != ""
  | .arr elems => !elems.isEmpty
  | .obj fields => !fields.isEmpty

/-- Association-list lookup (first occurrence), used for query parameters,
JSON object fields and the backend tables. -/
def alistGet {α : Type} : List (String × α) → String → Option α
  | [], _ => none
  | (k, v) :: rest, key => if k = key then some v else alistGet rest key

/-- Python dict.get on a parsed JSON object: returns Python None both when
the key is absent and when its value is JSON null. -/
def pyGet (fields : List (String × Json)) (key : String) : Option Json :=
  match alistGet fields key with
  | some Json.null => none
  | some v => some v
  | none => none

/-- Truthiness of a Python value that may be None. -/
def optTruthy : Option Json → Bool
  | none => false
  | some v => v.truthy

/-- An optional value passed through only when truthy, as in the
"if attributes: kwargs[...] = attributes" pattern of the routes. -/
def truthyOrNone : Option Json → Option Json
  | some v => if v.truthy then some v else none
  | none => none

/-- A (response body, HTTP status) pair, the value a Flask view returns. -/
abbrev HttpResponse := Json × Nat

/-- The uniform error body produced by jsonify with an error message. -/
def jsonError (msg : String) : Json :=
  Json.obj [("error", Json.str msg)]

/-- Whether request.args.get(n) is falsy: the parameter is absent or its
value is the empty string (http.py, line 44: "not request.args.get(n)"). -/
def queryMissing (args : List (String × String)) (n : String) : Bool :=
  match alistGet args n with
  | none => true
  | some s => s == ""

/-- require_query_params from app/utils/http.py: collects every missing
required query parameter; if any, answers a single 400 naming all of them,
comma-separated; otherwise lets the request proceed (models the decorator
returning control to the wrapped view). -/
def require_query_params (names : List String) (args : List (String × String)) :
    Option HttpResponse :=
  let missing := names.filter (fun n => queryMissing args n)
  if missing.isEmpty then none
  else
    some (jsonError ("Missing required query parameters: " ++
      String.intercalate ", " missing), 400)

/-- Whether a required body field fails the check of get_json_body
(http.py line 23: "value is None or value == ''"): the field is absent,
JSON null, or the empty string.  Any other value, including falsy ones
such as 0 or false, passes. -/
def fieldMissing (fields : List (String × Json)) (f : String) : Bool :=
  match pyGet fields f with
  | none => true
  | some (Json.str s) => s == ""
  | some _ => false

/-- Outcome of get_json_body: the validated data, an early error response,
or a raised Python exception (propagated to the route try/except). -/
inductive BodyResult where
  | ok (data : Json)
  | err (resp : HttpResponse)
  | exc (msg : String)

/-- get_json_body from app/utils/http.py.  The rawBody argument is the
result of request.get_json(silent=True): none when the body is absent or
not parseable as JSON; note that a body consisting of the JSON literal
null parses to Python None as well, hence the dedicated match arm.  For a
parseable non-object body, data.get(field) raises AttributeError on the
first required field; with no required fields the value is returned
unchanged. -/
def get_json_body (rawBody : Option Json) (required_fields : List String) :
    BodyResult :=
  match rawBody with
  | none => .err (jsonError "Invalid or missing JSON body", 400)
  | some Json.null => .err (jsonError "Invalid or missing JSON body", 400)
  | some (Json.obj fields) =>
    match required_fields.find? (fun f => fieldMissing fields f) with
    | some f => .err (jsonError ("Missing required field in body: " ++ f), 400)
    | none => .ok (Json.obj fields)
  | some other =>
    if required_fields.isEmpty then .ok other
    else .exc "AttributeError: object has no attribute get"

/-- Decimal digit parsing for pyIntOfString, structurally recursive over
the character list; none as soon as a non-digit appears. -/
def parseDigits : List Char → Nat → Option Nat
  | [], acc => some acc
  | c :: rest, acc =>
    if c.isDigit then parseDigits rest (acc * 10 + (c.toNat - 48))
    else none

/-- Python int() applied to a string: an optional minus sign followed by at
least one decimal digit (ValueError, i.e. none, otherwise).  Python also
accepts surrounding whitespace, a plus sign and underscores, forms no claim
depends on. -/
def pyIntOfString (s : String) : Option Int :=
  match s.data with
  | [] => none
  | c :: rest =>
    if c = '-' then
      match rest with
      | [] => none
      | _ => (parseDigits rest 0).map (fun n => -(n : Int))
    else (parseDigits (c :: rest) 0).map (fun n => (n : Int))

/-- Python int() applied to a JSON value: integers pass through, strings
are parsed (ValueError when not an integer literal), booleans coerce to
0/1, anything else raises TypeError (none). -/
def pyInt : Json → Option Int
  | Json.num n => some n
  | Json.str s => pyIntOfString s
  | Json.bool b => some (if b then 1 else 0)
  | _ => none

/-- One backend (boto3) call, recorded in the order the handler performs it.
listTopics stands for the full paginated list_topics enumeration done by one
get_paginator("list_topics") traversal. -/
inductive BackendCall where
  | listTopics
  | snsCreateTopic (name : Json)
  | snsPublish (topicArn : String) (message : Json)
      (subject : Option Json) (attributes : Option Json)
  | snsSubscribe (topicArn : Json) (protocol : String) (endpoint : Json)
      (rawDelivery : Bool)
  | sqsGetQueueUrl (queueName : String)
  | sqsGetQueueAttributes (queueUrl : String)
  | sqsSendMessage (queueUrl : String) (message : Json)
      (delaySeconds : Option Int) (attributes : Option Json)
  | sqsReceiveMessage (queueUrl : String) (maxNumber : Int) (waitTime : Int)
  | sqsDeleteMessage (queueUrl : String) (receiptHandle : String)
  | sqsPurgeQueue (queueUrl : String)
  | ddbGetItem (tableName : String) (key : List (String × String))

/-- The observable state of the external backend, as far as the handlers
consult it: the paginated topic listing (a page is a list of topic entries,
each entry the TopicArn field of the topic dict, absent when the dict has
no such key), the queue name-to-URL table, the QueueArn attribute per queue
URL, the messages a receive call returns per queue URL, and the identifiers
the backend mints for responses. -/
structure Backend where
  topicPages : List (List (Option String))
  queues : List (String × String)
  queueArns : List (String × String)
  queueMessages : List (String × List Json)
  messageId : String
  subscriptionArn : String

/-- get_queue_url_by_name from app/utils/aws.py: the backend's direct
name-to-URL lookup.  A none result models the backend raising a
QueueDoesNotExist ClientError. -/
def get_queue_url_by_name (be : Backend) (queue_name : String) : Option String :=
  alistGet be.queues queue_name

/-- The message carried by the ClientError the backend raises for a
nonexistent queue. -/
def queueNotFoundMsg : String :=
  "The specified queue does not exist for this wsdl version."

/-- client_error_response from app/utils/aws.py: every ClientError is
normalized to a 500 response carrying the backend error message. -/
def client_error_response (msg : String) : HttpResponse :=
  (jsonError msg, 500)

/-- The characters after the last colon of a character list: the running
segment is reset at every colon, so what remains at the end is the suffix
after the last separator (the whole input when it has no colon). -/
def afterLastColon : List Char → List Char → List Char
  | [], cur => cur
  | c :: rest, cur =>
    if c = ':' then afterLastColon rest []
    else afterLastColon rest (cur ++ [c])

/-- The short name derived from a topic ARN: the substring after the last
colon separator (sns.py line 86: arn.split(":")[-1]). -/
def name_from_arn (arn : String) : String :=
  String.mk (afterLastColon arn.data [])

/-- The inner loop of resolve_topic_arn_by_name over one page of topic
entries: entries whose TopicArn is absent or falsy (the empty string) are
skipped, and the first ARN whose derived short name equals the requested
name is returned. -/
def scanTopicPage : List (Option String) → String → Option String
  | [], _ => none
  | none :: rest, topic_name => scanTopicPage rest topic_name
  | some arn :: rest, topic_name =>
    if arn == "" then scanTopicPage rest topic_name
    else if name_from_arn arn == topic_name then some arn
    else scanTopicPage rest topic_name

/-- resolve_topic_arn_by_name from app/routes/sns.py: walks the paginated
topic listing page by page, returning the first matching ARN, or none when
no page holds a match. -/
def resolve_topic_arn_by_name (pages : List (List (Option String)))
    (topic_name : String) : Option String :=
  match pages with
  | [] => none
  | page :: rest =>
    match scanTopicPage page topic_name with
    | some arn => some arn
    | none => resolve_topic_arn_by_name rest topic_name

/-- Outcome of resolve_queue_arn_by_name: the ARN, a KeyError (attribute
missing from the backend reply), or a raised ClientError. -/
inductive ArnResult where
  | ok (arn : String)
  | keyError
  | clientErr (msg : String)

/-- resolve_queue_arn_by_name from app/utils/aws.py: resolve the queue URL
by name (raising ClientError when the queue does not exist), then read the
QueueArn attribute from get_queue_attributes. -/
def resolve_queue_arn_by_name (be : Backend) (queue_name : String) :
    ArnResult × List BackendCall :=
  match get_queue_url_by_name be queue_name with
  | none => (.clientErr queueNotFoundMsg, [.sqsGetQueueUrl queue_name])
  | some url =>
    match alistGet be.queueArns url with
    | none => (.keyError, [.sqsGetQueueUrl queue_name, .sqsGetQueueAttributes url])
    | some arn => (.ok arn, [.sqsGetQueueUrl queue_name, .sqsGetQueueAttributes url])

/-- send_message from app/routes/sqs.py (POST /v1/sqs/send): requires the
queue_name query parameter, validates the body inline (message must be
truthy), resolves the queue URL, optionally coerces delay_seconds with
int(), and sends.  A nonexistent queue surfaces as a 500 through
client_error_response; int() failure is an exception turned into a 500. -/
def send_message (be : Backend) (args : List (String × String))
    (rawBody : Option Json) : HttpResponse × List BackendCall :=
  match require_query_params ["queue_name"] args with
  | some resp => (resp, [])
  | none =>
    let queue_name := (alistGet args "queue_name").getD ""
    match rawBody with
    | none => ((jsonError "Invalid or missing JSON body", 400), [])
    | some Json.null => ((jsonError "Invalid or missing JSON body", 400), [])
    | some (Json.obj fields) =>
      match pyGet fields "message" with
      | none => ((jsonError "Missing required field in body: message", 400), [])
      | some m =>
        if !m.truthy then
          ((jsonError "Missing required field in body: message", 400), [])
        else
          let delay_seconds := pyGet fields "delay_seconds"
          let attributes := truthyOrNone (pyGet fields "attributes")
          match get_queue_url_by_name be queue_name with
          | none =>
            (client_error_response queueNotFoundMsg, [.sqsGetQueueUrl queue_name])
          | some url =>
            match delay_seconds with
            | none =>
              ((Json.obj [("message_id", Json.str be.messageId),
                          ("queue_name", Json.str queue_name)], 200),
               [.sqsGetQueueUrl queue_name,
                .sqsSendMessage url m none attributes])
            | some d =>
              match pyInt d with
              | none =>
                ((jsonError "ValueError: invalid literal for int with base 10", 500),
                 [.sqsGetQueueUrl queue_name])
              | some dInt =>
                ((Json.obj [("message_id", Json.str be.messageId),
                            ("queue_name", Json.str queue_name)], 200),
                 [.sqsGetQueueUrl queue_name,
                  .sqsSendMessage url m (some dInt) attributes])
    | some _ =>
      ((jsonError "AttributeError: object has no attribute get", 500), [])

/-- receive_messages from app/routes/sqs.py (GET /v1/sqs/messages):
requires queue_name, reads max_number (default "1") and wait_time_seconds
(default "0"), converts both with int() (ValueError becomes a 500), clamps
them into [1,10] and [0,20], resolves the queue URL and receives.  The
receive call also passes MessageAttributeNames=["All"], a constant not
recorded in the trace. -/
def receive_messages (be : Backend) (args : List (String × String)) :
    HttpResponse × List BackendCall :=
  match require_query_params ["queue_name"] args with
  | some resp => (resp, [])
  | none =>
    let queue_name := (alistGet args "queue_name").getD ""
    let max_number := (alistGet args "max_number").getD "1"
    let wait_time_seconds := (alistGet args "wait_time_seconds").getD "0"
    match pyIntOfString max_number with
    | none =>
      ((jsonError "ValueError: invalid literal for int with base 10", 500), [])
    | some mn =>
      match pyIntOfString wait_time_seconds with
      | none =>
        ((jsonError "ValueError: invalid literal for int with base 10", 500), [])
      | some wt =>
        let max_number_int := max (min mn 10) 1
        let wait_time_int := max (min wt 20) 0
        match get_queue_url_by_name be queue_name with
        | none =>
          (client_error_response queueNotFoundMsg, [.sqsGetQueueUrl queue_name])
        | some url =>
          let messages := (alistGet be.queueMessages url).getD []
          ((Json.obj [("queue_name", Json.str queue_name),
                      ("messages", Json.arr messages)], 200),
           [.sqsGetQueueUrl queue_name,
            .sqsReceiveMessage url max_number_int wait_time_int])

/-- delete_message from app/routes/sqs.py (DELETE /v1/sqs/messages): the
decorator requires only queue_name; receipt_handle is checked separately
inside the handler, then the queue URL is resolved and the message
deleted. -/
def delete_message (be : Backend) (args : List (String × String)) :
    HttpResponse × List BackendCall :=
  match require_query_params ["queue_name"] args with
  | some resp => (resp, [])
  | none =>
    let queue_name := (alistGet args "queue_name").getD ""
    match alistGet args "receipt_handle" with
    | none =>
      ((jsonError "Missing required query parameter: receipt_handle", 400), [])
    | some receipt_handle =>
      if receipt_handle == "" then
        ((jsonError "Missing required query parameter: receipt_handle", 400), [])
      else
        match get_queue_url_by_name be queue_name with
        | none =>
          (client_error_response queueNotFoundMsg, [.sqsGetQueueUrl queue_name])
        | some url =>
          ((Json.obj [("queue_name", Json.str queue_name),
                      ("receipt_handle", Json.str receipt_handle),
                      ("deleted", Json.bool true)], 200),
           [.sqsGetQueueUrl queue_name,
            .sqsDeleteMessage url receipt_handle])

/-- purge_queue from app/routes/sqs.py (DELETE /v1/sqs/messages/all):
requires queue_name, resolves the queue URL and requests the purge. -/
def purge_queue (be : Backend) (args : List (String × String)) :
    HttpResponse × List BackendCall :=
  match require_query_params ["queue_name"] args with
  | some resp => (resp, [])
  | none =>
    let queue_name := (alistGet args "queue_name").getD ""
    match get_queue_url_by_name be queue_name with
    | none =>
      (client_error_response queueNotFoundMsg, [.sqsGetQueueUrl queue_name])
    | some url =>
      ((Json.obj [("queue_name", Json.str queue_name),
                  ("purged", Json.bool true),
                  ("note", Json.str "Purge solicitado; operacao e assincrona no SQS.")], 200),
       [.sqsGetQueueUrl queue_name, .sqsPurgeQueue url])

/-- publish_message from app/routes/sns.py (POST /v1/sns/publish): requires
the topic_name query parameter, resolves the topic ARN by the paginated
listing FIRST (the listing backend call happens before any body
validation), answers 404 when unresolved, then validates the body with
get_json_body requiring message, and publishes.  The resolver never
returns the empty string, so the "if not topic_arn" test of the source
coincides with the none case. -/
def publish_message (be : Backend) (args : List (String × String))
    (rawBody : Option Json) : HttpResponse × List BackendCall :=
  match require_query_params ["topic_name"] args with
  | some resp => (resp, [])
  | none =>
    let topic_name := (alistGet args "topic_name").getD ""
    match resolve_topic_arn_by_name be.topicPages topic_name with
    | none =>
      ((Json.obj [("error", Json.str "Topic not found"),
                  ("details", Json.str ("Topic with name \x27" ++ topic_name ++
                    "\x27 was not found"))], 404),
       [.listTopics])
    | some topic_arn =>
      match get_json_body rawBody ["message"] with
      | .err resp => (resp, [.listTopics])
      | .exc msg => ((jsonError msg, 500), [.listTopics])
      | .ok data =>
        match data with
        | Json.obj fields =>
          let m := (pyGet fields "message").getD Json.null
          let subject := truthyOrNone (pyGet fields "subject")
          let attributes := truthyOrNone (pyGet fields "attributes")
          ((Json.obj [("message_id", Json.str be.messageId),
                      ("topic_arn", Json.str topic_arn),
                      ("topic_name", Json.str topic_name)], 200),
           [.listTopics, .snsPublish topic_arn m subject attributes])
        | _ =>
          ((jsonError "unreachable: get_json_body with required fields yields an object", 500),
           [.listTopics])

/-- The ARN the modelled backend mints for a newly created topic. -/
def arnForName (name : String) : String :=
  "arn:aws:sns:us-east-1:000000000000:" ++ name

/-- Modelled from the spec: the SNS backend create-topic operation is
external to this repository (reached through boto3).  Per the spec,
create-topic is "idempotent: creating an existing name returns the
existing address, never duplicates" (also stated in the create_topic route
docstring).  The state is the backend topic table, name to ARN. -/
def backendCreateTopic (topics : List (String × String)) (name : String) :
    List (String × String) × String :=
  match alistGet topics name with
  | some arn => (topics, arn)
  | none => (topics ++ [(name, arnForName name)], arnForName name)

/-- create_topic from app/routes/sns.py (POST /v1/sns/topics): validates
the body with get_json_body requiring name, then delegates to the backend
create-topic and echoes name plus resulting ARN with status 201.  A
non-string name fails boto3 client-side parameter validation, an exception
the route turns into a 500 with no backend call. -/
def create_topic (topics : List (String × String)) (rawBody : Option Json) :
    (List (String × String) × HttpResponse) × List BackendCall :=
  match get_json_body rawBody ["name"] with
  | .err resp => ((topics, resp), [])
  | .exc msg => ((topics, (jsonError msg, 500)), [])
  | .ok data =>
    match data with
    | Json.obj fields =>
      match pyGet fields "name" with
      | some (Json.str name) =>
        let created := backendCreateTopic topics name
        ((created.1, (Json.obj [("name", Json.str name),
                                ("topic_arn", Json.str created.2)], 201)),
         [.snsCreateTopic (Json.str name)])
      | some _ =>
        ((topics, (jsonError "ParamValidationError", 500)), [])
      | none =>
        ((topics, (jsonError "unreachable: name was validated as present", 500)), [])
    | _ =>
      ((topics, (jsonError "unreachable: get_json_body with required fields yields an object", 500)), [])

/-- The test "not sub_type or sub_type not in (sqs, lambda)" of
create_subscription: it passes exactly when the type field is the string
value sqs or the string value lambda. -/
def isSubTypeValid : Option Json → Bool
  | some (Json.str s) => s == "sqs" || s == "lambda"
  | _ => false

/-- The 201 response of a successful subscribe call. -/
def subscribe201 (be : Backend) (topicArn : Json) (protocol : String)
    (endpoint : Json) : HttpResponse :=
  (Json.obj [("subscription_arn", Json.str be.subscriptionArn),
             ("topic_arn", topicArn),
             ("protocol", Json.str protocol),
             ("endpoint", endpoint)], 201)

/-- The sns.subscribe call as the route performs it.  botocore validates
parameter types client-side against the service model before any network
request: a non-string TopicArn or Endpoint raises ParamValidationError,
which the route's catch-all except turns into a 500 with no backend call.
With string parameters the subscribe call happens and the route answers
201, with RawMessageDelivery requested exactly for the sqs protocol. -/
def snsSubscribeCall (be : Backend) (topicArn : Json) (protocol : String)
    (endpoint : Json) (trace : List BackendCall) :
    HttpResponse × List BackendCall :=
  match topicArn, endpoint with
  | Json.str ta, Json.str ep =>
    (subscribe201 be (Json.str ta) protocol (Json.str ep),
     trace ++ [.snsSubscribe (Json.str ta) protocol (Json.str ep) (protocol == "sqs")])
  | _, _ => ((jsonError "ParamValidationError", 500), trace)

/-- create_subscription from app/routes/sns.py (POST /v1/sns/subscriptions):
reads the body with get_json_body (no required fields), validates type,
resolves topic_arn from topic_name only when topic_arn is falsy, then for
type sqs resolves queue_arn from queue_name only when queue_arn is falsy
(raising through client_error_response when the queue does not exist), and
finally subscribes through snsSubscribeCall, which models boto3's
client-side type validation of TopicArn and Endpoint.  Resolution with a
non-string name is modelled as finding nothing (Python equality between a
string and a non-string is always False); a non-string queue_name fails
boto3 parameter validation, a 500 with no further backend call. -/
def create_subscription (be : Backend) (rawBody : Option Json) :
    HttpResponse × List BackendCall :=
  match get_json_body rawBody [] with
  | .err resp => (resp, [])
  | .exc msg => ((jsonError msg, 500), [])
  | .ok data =>
    match data with
    | Json.obj fields =>
      let topic_arn0 := pyGet fields "topic_arn"
      let sub_type := pyGet fields "type"
      if !isSubTypeValid sub_type then
        ((jsonError "type must be \x27sqs\x27 or \x27lambda\x27", 400), [])
      else
        let topic_name := pyGet fields "topic_name"
        let resolvedTopic : Option Json × List BackendCall :=
          if !optTruthy topic_arn0 && optTruthy topic_name then
            ((match topic_name with
              | some (Json.str tn) =>
                (resolve_topic_arn_by_name be.topicPages tn).map Json.str
              | _ => none),
             [.listTopics])
          else (topic_arn0, [])
        let topic_arn1 := resolvedTopic.1
        let trace1 := resolvedTopic.2
        if !optTruthy topic_arn1 then
          ((jsonError "topic_arn or topic_name is required", 400), trace1)
        else
          match sub_type with
          | some (Json.str "sqs") =>
            let queue_arn0 := pyGet fields "queue_arn"
            let queue_name := pyGet fields "queue_name"
            if !optTruthy queue_arn0 && optTruthy queue_name then
              match queue_name with
              | some (Json.str qn) =>
                match resolve_queue_arn_by_name be qn with
                | (.clientErr msg, t) =>
                  (client_error_response msg, trace1 ++ t)
                | (.keyError, t) =>
                  ((jsonError "KeyError: QueueArn", 500), trace1 ++ t)
                | (.ok qarn, t) =>
                  if qarn == "" then
                    ((jsonError "queue_arn or queue_name is required for type \x27sqs\x27", 400),
                     trace1 ++ t)
                  else
                    snsSubscribeCall be (topic_arn1.getD Json.null) "sqs"
                      (Json.str qarn) (trace1 ++ t)
              | _ => ((jsonError "ParamValidationError", 500), trace1)
            else
              if !optTruthy queue_arn0 then
                ((jsonError "queue_arn or queue_name is required for type \x27sqs\x27", 400),
                 trace1)
              else
                snsSubscribeCall be (topic_arn1.getD Json.null) "sqs"
                  (queue_arn0.getD Json.null) trace1
          | some (Json.str "lambda") =>
            let lambda_arn := pyGet fields "lambda_arn"
            if !optTruthy lambda_arn then
              ((jsonError "lambda_arn is required for type \x27lambda\x27", 400), trace1)
            else
              snsSubscribeCall be (topic_arn1.getD Json.null) "lambda"
                (lambda_arn.getD Json.null) trace1
          | _ =>
            ((jsonError "unreachable: sub_type was validated", 500), trace1)
    | _ =>
      ((jsonError "AttributeError: object has no attribute get", 500), [])

/-- Python dict assignment key[k] = v on a string-keyed dict: overwrites an
existing entry in place, otherwise appends. -/
def dictInsert (d : List (String × String)) (k v : String) :
    List (String × String) :=
  if (alistGet d k).isSome then
    d.map (fun p => if p.1 = k then (k, v) else p)
  else d ++ [(k, v)]

/-- Truthiness of request.args.get for an optional string parameter:
present and nonempty. -/
def strTruthy : Option String → Bool
  | none => false
  | some s => s != ""

/-- get_item from app/routes/dynamodb.py (GET /v1/dynamodb/item): requires
table_name, partition_key_name and partition_key_value; the sort key pair
is added to the lookup key only when both sort_key_name and
sort_key_value are truthy; then the item is fetched (the ddb argument is
the backend get_item: none or a falsy item means not found, answered with
404). -/
def get_item (ddb : String → List (String × String) → Option Json)
    (args : List (String × String)) : HttpResponse × List BackendCall :=
  match require_query_params ["table_name", "partition_key_name", "partition_key_value"] args with
  | some resp => (resp, [])
  | none =>
    let table_name := (alistGet args "table_name").getD ""
    let partition_key_name := (alistGet args "partition_key_name").getD ""
    let partition_key_value := (alistGet args "partition_key_value").getD ""
    let sort_key_name := alistGet args "sort_key_name"
    let sort_key_value := alistGet args "sort_key_value"
    let baseKey := [(partition_key_name, partition_key_value)]
    let key :=
      if strTruthy sort_key_name && strTruthy sort_key_value then
        dictInsert baseKey (sort_key_name.getD "") (sort_key_value.getD "")
      else baseKey
    match ddb table_name key with
    | none => ((jsonError "Item not found.", 404), [.ddbGetItem table_name key])
    | some item =>
      if !item.truthy then
        ((jsonError "Item not found.", 404), [.ddbGetItem table_name key])
      else ((item, 200), [.ddbGetItem table_name key])

/-! Concrete fixtures used by witnesses and counterexamples. -/

/-- A backend with no topics and no queues. -/
def beEmpty : Backend :=
  { topicPages := [], queues := [], queueArns := [], queueMessages := [],
    messageId := "m-1", subscriptionArn := "s-1" }

/-- A backend whose topic listing holds one topic with short name t, and
one queue named q with URL u and ARN qarn. -/
def beOneTopic : Backend :=
  { topicPages := [[some "arn:aws:sns:us-east-1:1:t"]],
    queues := [("q", "u")], queueArns := [("u", "qarn")],
    queueMessages := [], messageId := "m-1", subscriptionArn := "s-1" }

/-- Prefix test on character lists, structurally recursive. -/
def leadsChars : List Char → List Char → Bool
  | [], _ => true
  | _ :: _, [] => false
  | a :: as, b :: bs => a == b && leadsChars as bs

/-- Whether the needle occurs as a contiguous substring of the haystack. -/
def hasSubChars (needle : List Char) : List Char → Bool
  | [] => needle.isEmpty
  | c :: cs => leadsChars needle (c :: cs) || hasSubChars needle cs

/-- Whether one string occurs inside another. -/
def strHasSub (hay needle : String) : Bool :=
  hasSubChars needle.data hay.data

/-! Specification-side description of the topic listing used to state C4. -/

/-- A topic entry as the resolver considers it: skipped when the TopicArn
field is absent or falsy, kept otherwise. -/
def validTopicEntry : Option String → Option String
  | some a => if a == "" then none else some a
  | none => none

/-- All listed topic identifiers over all pages, in listing order, with
skipped entries removed. -/
def listedArns (pages : List (List (Option String))) : List String :=
  pages.flatten.filterMap validTopicEntry

theorem scanTopicPage_eq_find? (page : List (Option String)) (n : String) :
    scanTopicPage page n
      = (page.filterMap validTopicEntry).find? (fun a => name_from_arn a == n) := by
  induction page with
  | nil => rfl
  | cons e rest ih =>
    cases e with
    | none => simpa [scanTopicPage, validTopicEntry] using ih
    | some a =>
      by_cases ha : a == ""
      · simpa [scanTopicPage, validTopicEntry, ha] using ih
      · by_cases hm : name_from_arn a == n
        · simp [scanTopicPage, validTopicEntry, ha, hm, List.find?]
        · simpa [scanTopicPage, validTopicEntry, ha, hm, List.find?] using ih

theorem resolve_topic_arn_eq_find? (pages : List (List (Option String)))
    (n : String) :
    resolve_topic_arn_by_name pages n
      = (listedArns pages).find? (fun a => name_from_arn a == n) := by
  induction pages with
  | nil => rfl
  | cons page rest ih =>
    have happ :
        listedArns (page :: rest)
          = page.filterMap validTopicEntry ++ listedArns rest := by
      simp [listedArns, List.flatten, List.filterMap_append]
    rw [resolve_topic_arn_by_name, happ, List.find?_append,
      ← scanTopicPage_eq_find?, ih]
    cases scanTopicPage page n <;> simp [Option.or]

/-- C4: topic resolution returns the first listed identifier whose
substring after the last colon equals the requested name exactly and
case-sensitively; when no page holds such an identifier it returns none
rather than raising; and a successful resolution always has a derived
short name equal to the requested name. -/
theorem topic_resolution_first_exact_match
    (pages : List (List (Option String))) (n : String) :
    resolve_topic_arn_by_name pages n
      = (listedArns pages).find? (fun a => name_from_arn a == n)
    ∧ ((∀ a ∈ listedArns pages, name_from_arn a ≠ n) →
        resolve_topic_arn_by_name pages n = none)
    ∧ (∀ arn, resolve_topic_arn_by_name pages n = some arn →
        name_from_arn arn = n) := by
  refine ⟨resolve_topic_arn_eq_find? pages n, ?_, ?_⟩
  · intro hnone
    rw [resolve_topic_arn_eq_find? pages n, List.find?_eq_none]
    intro a ha
    simpa using hnone a ha
  · intro arn hres
    rw [resolve_topic_arn_eq_find? pages n] at hres
    have := List.find?_some hres
    simpa using this

/-- Witness for C4: on a concrete two-page listing with a skipped entry
per page, resolution finds arn:b:y for the name y, and its derived short
name is y. -/
theorem topic_resolution_first_exact_match_witness :
    resolve_topic_arn_by_name [[some "arn:a:x", none], [some "", some "arn:b:y"]] "y"
      = (listedArns [[some "arn:a:x", none], [some "", some "arn:b:y"]]).find?
          (fun a => name_from_arn a == "y")
    ∧ name_from_arn "arn:b:y" = "y" :=
  ⟨(topic_resolution_first_exact_match [[some "arn:a:x", none], [some "", some "arn:b:y"]] "y").1,
   (topic_resolution_first_exact_match [[some "arn:a:x", none], [some "", some "arn:b:y"]] "y").2.2
     "arn:b:y" (by rfl)⟩

/-- C3: a publish request naming a topic that does not resolve answers 404
with the Topic-not-found error body, after only the listing call: no
publish call is attempted and no topic is created. -/
theorem publish_unresolved_topic_404_no_publish (be : Backend)
    (args : List (String × String)) (tn : String) (rawBody : Option Json)
    (hargs : alistGet args "topic_name" = some tn) (htn : tn ≠ "")
    (hres : resolve_topic_arn_by_name be.topicPages tn = none) :
    publish_message be args rawBody
      = ((Json.obj [("error", Json.str "Topic not found"),
                    ("details", Json.str ("Topic with name \x27" ++ tn ++
                      "\x27 was not found"))], 404),
         [BackendCall.listTopics]) := by
  unfold publish_message require_query_params
  simp [queryMissing, hargs, htn, hres]

/-- Witness for C3: the spec scenario, publishing to missing-topic on a
backend with an empty topic listing, with a well-formed body. -/
theorem publish_unresolved_topic_404_no_publish_witness :
    publish_message beEmpty [("topic_name", "missing-topic")]
        (some (Json.obj [("message", Json.str "hi")]))
      = ((Json.obj [("error", Json.str "Topic not found"),
                    ("details", Json.str ("Topic with name \x27missing-topic\x27 was not found"))], 404),
         [BackendCall.listTopics]) :=
  publish_unresolved_topic_404_no_publish beEmpty [("topic_name", "missing-topic")]
    "missing-topic" (some (Json.obj [("message", Json.str "hi")]))
    (by rfl) (by decide) (by rfl)

/-- C7: the effective max message count is the requested value (default 1
when the parameter is absent, since getD supplies the string 1) clamped
into [1,10], and the effective wait time is the requested value (default 0
when absent) clamped into [0,20]; the request succeeds with 200, so
clamping is silent and an out-of-range value is never an error. -/
theorem receive_clamps_max_and_wait (be : Backend)
    (args : List (String × String)) (qn url : String) (m w : Int)
    (hqn : alistGet args "queue_name" = some qn) (hqn' : qn ≠ "")
    (hurl : alistGet be.queues qn = some url)
    (hm : pyIntOfString ((alistGet args "max_number").getD "1") = some m)
    (hw : pyIntOfString ((alistGet args "wait_time_seconds").getD "0") = some w) :
    receive_messages be args
      = ((Json.obj [("queue_name", Json.str qn),
                    ("messages", Json.arr ((alistGet be.queueMessages url).getD []))], 200),
         [BackendCall.sqsGetQueueUrl qn,
          BackendCall.sqsReceiveMessage url (max (min m 10) 1) (max (min w 20) 0)])
    ∧ 1 ≤ max (min m 10) 1 ∧ max (min m 10) 1 ≤ 10
    ∧ 0 ≤ max (min w 20) 0 ∧ max (min w 20) 0 ≤ 20 := by
  constructor
  · unfold receive_messages require_query_params get_queue_url_by_name
    simp [queryMissing, hqn, hqn', hm, hw, hurl]
  · omega

/-- Witness for C7: requesting max_number 500 and wait_time_seconds -5 on
an existing queue succeeds with the effective values clamped to 10 and
0. -/
theorem receive_clamps_max_and_wait_witness :
    receive_messages beOneTopic
        [("queue_name", "q"), ("max_number", "500"), ("wait_time_seconds", "-5")]
      = ((Json.obj [("queue_name", Json.str "q"),
                    ("messages", Json.arr [])], 200),
         [BackendCall.sqsGetQueueUrl "q",
          BackendCall.sqsReceiveMessage "u" (max (min 500 10) 1) (max (min (-5) 20) 0)])
    ∧ 1 ≤ max (min (500 : Int) 10) 1 ∧ max (min (500 : Int) 10) 1 ≤ 10
    ∧ 0 ≤ max (min (-5 : Int) 20) 0 ∧ max (min (-5 : Int) 20) 0 ≤ 20 :=
  receive_clamps_max_and_wait beOneTopic
    [("queue_name", "q"), ("max_number", "500"), ("wait_time_seconds", "-5")]
    "q" "u" 500 (-5) (by rfl) (by decide) (by rfl) (by rfl) (by rfl)

theorem alistGet_append_of_none {α : Type} (l l2 : List (String × α))
    (k : String) (h : alistGet l k = none) :
    alistGet (l ++ l2) k = alistGet l2 k := by
  induction l with
  | nil => rfl
  | cons p rest ih =>
    rw [alistGet] at h
    by_cases hk : p.1 = k
    · rw [if_pos hk] at h
      exact absurd h (by simp)
    · rw [List.cons_append, alistGet, if_neg hk]
      exact ih (by rwa [if_neg hk] at h)

theorem backendCreateTopic_idem (topics : List (String × String))
    (name : String) :
    backendCreateTopic (backendCreateTopic topics name).1 name
      = backendCreateTopic topics name := by
  unfold backendCreateTopic
  cases h : alistGet topics name with
  | some arn => simp [h]
  | none =>
    simp only [h]
    rw [alistGet_append_of_none topics [(name, arnForName name)] name h]
    simp [alistGet]

theorem create_topic_eq (topics : List (String × String)) (name : String)
    (hn : name ≠ "") :
    create_topic topics (some (Json.obj [("name", Json.str name)]))
      = (((backendCreateTopic topics name).1,
          (Json.obj [("name", Json.str name),
                     ("topic_arn", Json.str (backendCreateTopic topics name).2)], 201)),
         [BackendCall.snsCreateTopic (Json.str name)]) := by
  unfold create_topic get_json_body
  simp [fieldMissing, pyGet, alistGet, hn]

/-- C8: creating a topic twice with the same name answers 201 both times,
echoes the same native address both times, and the second call leaves the
backend topic table unchanged, so no duplicate is ever created and the
second call never errors. -/
theorem create_topic_idempotent (topics : List (String × String))
    (name : String) (hn : name ≠ "") :
    (create_topic topics (some (Json.obj [("name", Json.str name)]))).1.2.2 = 201
    ∧ (create_topic
        (create_topic topics (some (Json.obj [("name", Json.str name)]))).1.1
        (some (Json.obj [("name", Json.str name)]))).1.2.2 = 201
    ∧ (create_topic
        (create_topic topics (some (Json.obj [("name", Json.str name)]))).1.1
        (some (Json.obj [("name", Json.str name)]))).1.2.1
      = (create_topic topics (some (Json.obj [("name", Json.str name)]))).1.2.1
    ∧ (create_topic
        (create_topic topics (some (Json.obj [("name", Json.str name)]))).1.1
        (some (Json.obj [("name", Json.str name)]))).1.1
      = (create_topic topics (some (Json.obj [("name", Json.str name)]))).1.1 := by
  rw [create_topic_eq topics name hn]
  rw [create_topic_eq (backendCreateTopic topics name).1 name hn]
  rw [backendCreateTopic_idem topics name]
  exact ⟨rfl, rfl, rfl, rfl⟩

/-- Witness for C8: creating orders twice starting from an empty backend
topic table. -/
theorem create_topic_idempotent_witness :
    (create_topic [] (some (Json.obj [("name", Json.str "orders")]))).1.2.2 = 201
    ∧ (create_topic
        (create_topic [] (some (Json.obj [("name", Json.str "orders")]))).1.1
        (some (Json.obj [("name", Json.str "orders")]))).1.2.2 = 201
    ∧ (create_topic
        (create_topic [] (some (Json.obj [("name", Json.str "orders")]))).1.1
        (some (Json.obj [("name", Json.str "orders")]))).1.2.1
      = (create_topic [] (some (Json.obj [("name", Json.str "orders")]))).1.2.1
    ∧ (create_topic
        (create_topic [] (some (Json.obj [("name", Json.str "orders")]))).1.1
        (some (Json.obj [("name", Json.str "orders")]))).1.1
      = (create_topic [] (some (Json.obj [("name", Json.str "orders")]))).1.1 :=
  create_topic_idempotent [] "orders" (by decide)

/-- C9: the sort key pair is part of the backend lookup key exactly when
both sort_key_name and sort_key_value are present and nonempty; when at
most one of the two is supplied the lookup key is the partition key alone
and the response is the ordinary 200 or 404 outcome, with no error
reported for the half-supplied sort key. -/
theorem get_item_sort_key_handling
    (ddb : String → List (String × String) → Option Json)
    (args : List (String × String)) (tn pkn pkv : String)
    (h1 : alistGet args "table_name" = some tn) (h1' : tn ≠ "")
    (h2 : alistGet args "partition_key_name" = some pkn) (h2' : pkn ≠ "")
    (h3 : alistGet args "partition_key_value" = some pkv) (h3' : pkv ≠ "") :
    (∀ sk sv, alistGet args "sort_key_name" = some sk → sk ≠ "" →
       alistGet args "sort_key_value" = some sv → sv ≠ "" →
       (get_item ddb args).2
         = [BackendCall.ddbGetItem tn (dictInsert [(pkn, pkv)] sk sv)])
    ∧ ((strTruthy (alistGet args "sort_key_name") = false
        ∨ strTruthy (alistGet args "sort_key_value") = false) →
       (get_item ddb args).2 = [BackendCall.ddbGetItem tn [(pkn, pkv)]]
       ∧ ((get_item ddb args).1.2 = 200 ∨ (get_item ddb args).1.2 = 404)) := by
  have hreq : require_query_params
      ["table_name", "partition_key_name", "partition_key_value"] args = none := by
    unfold require_query_params
    simp [queryMissing, h1, h2, h3, h1', h2', h3']
  constructor
  · intro sk sv hsk hsk' hsv hsv'
    unfold get_item
    simp only [hreq, h1, h2, h3, hsk, hsv, Option.getD_some, strTruthy,
      bne_iff_ne, ne_eq]
    cases hdd : ddb tn (dictInsert [(pkn, pkv)] sk sv) with
    | none => simp [hdd, hsk', hsv']
    | some item =>
      by_cases hit : item.truthy <;> simp [hdd, hit, hsk', hsv']
  · intro hst
    have hcond : (strTruthy (alistGet args "sort_key_name")
        && strTruthy (alistGet args "sort_key_value")) = false := by
      rcases hst with hst | hst <;> simp [hst]
    unfold get_item
    simp only [hreq, h1, h2, h3, Option.getD_some, hcond, Bool.false_eq_true,
      if_false]
    cases hdd : ddb tn [(pkn, pkv)] with
    | none => simp [hdd]
    | some item =>
      by_cases hit : item.truthy <;> simp [hdd, hit]

/-- Witness for C9: a request supplying only sort_key_name results in a
lookup on the partition key alone and a 404 when the item is absent. -/
theorem get_item_sort_key_handling_witness :
    ((get_item (fun _ _ => none)
        [("table_name", "Users"), ("partition_key_name", "id"),
         ("partition_key_value", "42"), ("sort_key_name", "ts")]).2
      = [BackendCall.ddbGetItem "Users" [("id", "42")]]
    ∧ ((get_item (fun _ _ => none)
        [("table_name", "Users"), ("partition_key_name", "id"),
         ("partition_key_value", "42"), ("sort_key_name", "ts")]).1.2 = 200
      ∨ (get_item (fun _ _ => none)
        [("table_name", "Users"), ("partition_key_name", "id"),
         ("partition_key_value", "42"), ("sort_key_name", "ts")]).1.2 = 404)) :=
  (get_item_sort_key_handling (fun _ _ => none)
    [("table_name", "Users"), ("partition_key_name", "id"),
     ("partition_key_value", "42"), ("sort_key_name", "ts")]
    "Users" "id" "42" (by rfl) (by decide) (by rfl) (by decide)
    (by rfl) (by decide)).2 (Or.inr (by rfl))

/-- Counterexample for C1: sending to a queue the backend does not know,
with a well-formed body, yields HTTP 500 (the normalized ClientError), not
the 404 the claim states. -/
theorem missing_queue_send_500_cex :
    (send_message beEmpty [("queue_name", "orders")]
        (some (Json.obj [("message", Json.str "hi")]))).1.2 = 500
    ∧ (send_message beEmpty [("queue_name", "orders")]
        (some (Json.obj [("message", Json.str "hi")]))).1.2 ≠ 404 :=
  ⟨rfl, by decide⟩

/-- C1 (amended): for send, receive, delete-one, purge and the queue-ARN
resolution of create-subscription, a queue name the backend reports as
nonexistent makes the request fail with the ClientError normalized by
client_error_response, i.e. HTTP 500 carrying the backend message — never
HTTP 404. -/
theorem missing_queue_all_ops_500 (be : Backend) (qn : String) (hq : qn ≠ "")
    (hmiss : alistGet be.queues qn = none)
    (ms : String) (hms : ms ≠ "") (rh : String) (hrh : rh ≠ "")
    (ta : String) (hta : ta ≠ "") :
    (send_message be [("queue_name", qn)]
        (some (Json.obj [("message", Json.str ms)]))).1
      = client_error_response queueNotFoundMsg
    ∧ (receive_messages be [("queue_name", qn)]).1
      = client_error_response queueNotFoundMsg
    ∧ (delete_message be [("queue_name", qn), ("receipt_handle", rh)]).1
      = client_error_response queueNotFoundMsg
    ∧ (purge_queue be [("queue_name", qn)]).1
      = client_error_response queueNotFoundMsg
    ∧ (create_subscription be (some (Json.obj
        [("type", Json.str "sqs"), ("topic_arn", Json.str ta),
         ("queue_name", Json.str qn)]))).1
      = client_error_response queueNotFoundMsg := by
  refine ⟨?_, ?_, ?_, ?_, ?_⟩
  · unfold send_message require_query_params get_queue_url_by_name
    simp [queryMissing, alistGet, pyGet, Json.truthy, hq, hms, hmiss]
  · unfold receive_messages require_query_params get_queue_url_by_name
    simp [queryMissing, alistGet, hq, hmiss, pyIntOfString, parseDigits]
  · unfold delete_message require_query_params get_queue_url_by_name
    simp [queryMissing, alistGet, hq, hrh, hmiss]
  · unfold purge_queue require_query_params get_queue_url_by_name
    simp [queryMissing, alistGet, hq, hmiss]
  · unfold create_subscription get_json_body resolve_queue_arn_by_name
      get_queue_url_by_name
    simp [pyGet, alistGet, isSubTypeValid, optTruthy, Json.truthy, hq, hta, hmiss]

/-- Witness for C1 (amended): a backend with no queues, queue name orders,
message hi, receipt handle r1 and caller-supplied topic ARN ta. -/
theorem missing_queue_all_ops_500_witness :
    (send_message beEmpty [("queue_name", "orders")]
        (some (Json.obj [("message", Json.str "hi")]))).1
      = client_error_response queueNotFoundMsg
    ∧ (receive_messages beEmpty [("queue_name", "orders")]).1
      = client_error_response queueNotFoundMsg
    ∧ (delete_message beEmpty [("queue_name", "orders"), ("receipt_handle", "r1")]).1
      = client_error_response queueNotFoundMsg
    ∧ (purge_queue beEmpty [("queue_name", "orders")]).1
      = client_error_response queueNotFoundMsg
    ∧ (create_subscription beEmpty (some (Json.obj
        [("type", Json.str "sqs"), ("topic_arn", Json.str "ta"),
         ("queue_name", Json.str "orders")]))).1
      = client_error_response queueNotFoundMsg :=
  missing_queue_all_ops_500 beEmpty "orders" (by decide) (by rfl)
    "hi" (by decide) "r1" (by decide) "ta" (by decide)

theorem send_message_400_no_backend_call (be : Backend)
    (args : List (String × String)) (rawBody : Option Json) :
    (send_message be args rawBody).1.2 = 400 →
    (send_message be args rawBody).2 = [] := by
  have hd : (send_message be args rawBody).2 = []
      ∨ (send_message be args rawBody).1.2 ≠ 400 := by
    simp only [send_message]
    repeat' split
    all_goals simp [client_error_response]
  intro h
  exact hd.resolve_right (fun hne => hne h)

theorem receive_messages_400_no_backend_call (be : Backend)
    (args : List (String × String)) :
    (receive_messages be args).1.2 = 400 →
    (receive_messages be args).2 = [] := by
  have hd : (receive_messages be args).2 = []
      ∨ (receive_messages be args).1.2 ≠ 400 := by
    simp only [receive_messages]
    repeat' split
    all_goals simp [client_error_response]
  intro h
  exact hd.resolve_right (fun hne => hne h)

theorem delete_message_400_no_backend_call (be : Backend)
    (args : List (String × String)) :
    (delete_message be args).1.2 = 400 →
    (delete_message be args).2 = [] := by
  have hd : (delete_message be args).2 = []
      ∨ (delete_message be args).1.2 ≠ 400 := by
    simp only [delete_message]
    repeat' split
    all_goals simp [client_error_response]
  intro h
  exact hd.resolve_right (fun hne => hne h)

theorem purge_queue_400_no_backend_call (be : Backend)
    (args : List (String × String)) :
    (purge_queue be args).1.2 = 400 →
    (purge_queue be args).2 = [] := by
  have hd : (purge_queue be args).2 = []
      ∨ (purge_queue be args).1.2 ≠ 400 := by
    simp only [purge_queue]
    repeat' split
    all_goals simp [client_error_response]
  intro h
  exact hd.resolve_right (fun hne => hne h)

theorem get_item_400_no_backend_call
    (ddb : String → List (String × String) → Option Json)
    (args : List (String × String)) :
    (get_item ddb args).1.2 = 400 →
    (get_item ddb args).2 = [] := by
  have hd : (get_item ddb args).2 = []
      ∨ (get_item ddb args).1.2 ≠ 400 := by
    simp only [get_item]
    repeat' split
    all_goals simp
  intro h
  exact hd.resolve_right (fun hne => hne h)

theorem create_topic_400_no_backend_call (topics : List (String × String))
    (rawBody : Option Json) :
    (create_topic topics rawBody).1.2.2 = 400 →
    (create_topic topics rawBody).2 = [] := by
  have hd : (create_topic topics rawBody).2 = []
      ∨ (create_topic topics rawBody).1.2.2 ≠ 400 := by
    simp only [create_topic]
    repeat' split
    all_goals simp
  intro h
  exact hd.resolve_right (fun hne => hne h)

theorem get_json_body_err_status (rawBody : Option Json)
    (required : List String) (r : HttpResponse)
    (h : get_json_body rawBody required = BodyResult.err r) : r.2 = 400 := by
  unfold get_json_body at h
  repeat' split at h
  all_goals simp_all
  all_goals (cases h; rfl)

/-- Counterexample for C2: a publish request with an absent body against a
backend where the topic exists answers 400 (invalid body), but only after
the topic listing backend call — the trace is nonempty when the 400 is
produced. -/
theorem publish_body_400_after_listing_cex :
    publish_message beOneTopic [("topic_name", "t")] none
      = ((jsonError "Invalid or missing JSON body", 400),
         [BackendCall.listTopics]) := by
  rfl

/-- C2 (amended): for the send, receive, delete-one, purge, get-item and
create-topic endpoints every 400 response is produced with an empty
backend trace, before any backend call; the publish endpoint instead
resolves the topic first, so when the topic resolves and the body fails
validation, the 400 body-validation response is returned only after the
topic listing call. -/
theorem validation_400_before_backend (be : Backend)
    (args : List (String × String)) (rawBody : Option Json)
    (tn arn : String) (r : HttpResponse)
    (hargs : alistGet args "topic_name" = some tn) (htn : tn ≠ "")
    (hres : resolve_topic_arn_by_name be.topicPages tn = some arn)
    (hbody : get_json_body rawBody ["message"] = BodyResult.err r) :
    (∀ (be2 : Backend) (args2 : List (String × String)) (rb2 : Option Json),
       (send_message be2 args2 rb2).1.2 = 400 → (send_message be2 args2 rb2).2 = [])
    ∧ (∀ (be2 : Backend) (args2 : List (String × String)),
       (receive_messages be2 args2).1.2 = 400 → (receive_messages be2 args2).2 = [])
    ∧ (∀ (be2 : Backend) (args2 : List (String × String)),
       (delete_message be2 args2).1.2 = 400 → (delete_message be2 args2).2 = [])
    ∧ (∀ (be2 : Backend) (args2 : List (String × String)),
       (purge_queue be2 args2).1.2 = 400 → (purge_queue be2 args2).2 = [])
    ∧ (∀ (ddb : String → List (String × String) → Option Json)
         (args2 : List (String × String)),
       (get_item ddb args2).1.2 = 400 → (get_item ddb args2).2 = [])
    ∧ (∀ (topics : List (String × String)) (rb2 : Option Json),
       (create_topic topics rb2).1.2.2 = 400 → (create_topic topics rb2).2 = [])
    ∧ publish_message be args rawBody = (r, [BackendCall.listTopics])
    ∧ r.2 = 400 := by
  refine ⟨send_message_400_no_backend_call,
    receive_messages_400_no_backend_call,
    delete_message_400_no_backend_call,
    purge_queue_400_no_backend_call,
    get_item_400_no_backend_call,
    create_topic_400_no_backend_call, ?_,
    get_json_body_err_status rawBody ["message"] r hbody⟩
  unfold publish_message require_query_params
  simp [queryMissing, hargs, htn, hres, hbody]

/-- Witness for C2 (amended): backend with topic t, publish to t with no
body: the 400 comes with the listing call already performed. -/
theorem validation_400_before_backend_witness :
    (∀ (be2 : Backend) (args2 : List (String × String)) (rb2 : Option Json),
       (send_message be2 args2 rb2).1.2 = 400 → (send_message be2 args2 rb2).2 = [])
    ∧ (∀ (be2 : Backend) (args2 : List (String × String)),
       (receive_messages be2 args2).1.2 = 400 → (receive_messages be2 args2).2 = [])
    ∧ (∀ (be2 : Backend) (args2 : List (String × String)),
       (delete_message be2 args2).1.2 = 400 → (delete_message be2 args2).2 = [])
    ∧ (∀ (be2 : Backend) (args2 : List (String × String)),
       (purge_queue be2 args2).1.2 = 400 → (purge_queue be2 args2).2 = [])
    ∧ (∀ (ddb : String → List (String × String) → Option Json)
         (args2 : List (String × String)),
       (get_item ddb args2).1.2 = 400 → (get_item ddb args2).2 = [])
    ∧ (∀ (topics : List (String × String)) (rb2 : Option Json),
       (create_topic topics rb2).1.2.2 = 400 → (create_topic topics rb2).2 = [])
    ∧ publish_message beOneTopic [("topic_name", "t")] none
        = ((jsonError "Invalid or missing JSON body", 400), [BackendCall.listTopics])
    ∧ ((jsonError "Invalid or missing JSON body", 400) : HttpResponse).2 = 400 :=
  validation_400_before_backend beOneTopic [("topic_name", "t")] none
    "t" "arn:aws:sns:us-east-1:1:t" (jsonError "Invalid or missing JSON body", 400)
    (by rfl) (by decide) (by rfl) (by rfl)

/-- Counterexample for C5: a body that is valid JSON but not a JSON object
(here a one-element array), checked against a required field, does not
produce the InvalidBody 400 the claim states: data.get raises
AttributeError, which the routes turn into a 500. -/
theorem get_json_body_nonobject_cex :
    get_json_body (some (Json.arr [Json.num 1])) ["message"]
      = BodyResult.exc "AttributeError: object has no attribute get" := by
  rfl

/-- C5 (amended): get_json_body answers InvalidBody 400 exactly when the
parse result is Python None (body absent, unparseable, or the JSON literal
null); on an object body it answers MissingField 400 naming the first
required field that is absent, null or the empty string, and passes the
object through unchanged when no required field is missing (other falsy
values such as 0 or false, and nested optional structures, pass); a body
parsing to a non-object, non-null JSON value is not rejected by
validation: with required fields it raises AttributeError (a route-level
500), with none it is passed through unchanged. -/
theorem get_json_body_spec (rawBody : Option Json) (required : List String) :
    ((rawBody = none ∨ rawBody = some Json.null) →
      get_json_body rawBody required
        = .err (jsonError "Invalid or missing JSON body", 400))
    ∧ (∀ fields, rawBody = some (Json.obj fields) →
        ((∀ f ∈ required, fieldMissing fields f = false) →
          get_json_body rawBody required = .ok (Json.obj fields))
        ∧ (∀ f, required.find? (fun g => fieldMissing fields g) = some f →
            get_json_body rawBody required
              = .err (jsonError ("Missing required field in body: " ++ f), 400))
        ∧ (∀ f, fieldMissing fields f = true
            ↔ (alistGet fields f = none ∨ alistGet fields f = some Json.null
               ∨ alistGet fields f = some (Json.str ""))))
    ∧ (∀ v, rawBody = some v → (∀ fields2, v ≠ Json.obj fields2) →
        v ≠ Json.null →
        (required = [] → get_json_body rawBody required = .ok v)
        ∧ (required ≠ [] → get_json_body rawBody required
             = .exc "AttributeError: object has no attribute get")) := by
  refine ⟨?_, ?_, ?_⟩
  · rintro (h | h) <;> subst h <;> rfl
  · intro fields h
    subst h
    refine ⟨?_, ?_, ?_⟩
    · intro hall
      have hfind : required.find? (fun f => fieldMissing fields f) = none :=
        List.find?_eq_none.mpr (fun f hf => by simp [hall f hf])
      simp only [get_json_body, hfind]
    · intro f hfind
      simp only [get_json_body, hfind]
    · intro f
      unfold fieldMissing pyGet
      cases h : alistGet fields f with
      | none => simp
      | some v => cases v <;> simp [h]
  · intro v hv hobj hnull
    subst hv
    constructor
    · intro hreq
      subst hreq
      cases v with
      | null => exact absurd rfl hnull
      | obj fields2 => exact absurd rfl (hobj fields2)
      | bool b => rfl
      | num n => rfl
      | str s => rfl
      | arr elems => rfl
    · intro hreq
      have hne : required.isEmpty = false := by
        cases required with
        | nil => exact absurd rfl hreq
        | cons a l => rfl
      cases v with
      | null => exact absurd rfl hnull
      | obj fields2 => exact absurd rfl (hobj fields2)
      | bool b => simp [get_json_body, hne]
      | num n => simp [get_json_body, hne]
      | str s => simp [get_json_body, hne]
      | arr elems => simp [get_json_body, hne]

/-- Witness for C5 (amended): an object body carrying message hi and the
falsy-but-present field count 0, checked against required field message. -/
theorem get_json_body_spec_witness :
    ((some (Json.obj [("message", Json.str "hi"), ("count", Json.num 0)])
        = (none : Option Json)
      ∨ some (Json.obj [("message", Json.str "hi"), ("count", Json.num 0)])
        = some Json.null) →
      get_json_body
          (some (Json.obj [("message", Json.str "hi"), ("count", Json.num 0)]))
          ["message"]
        = .err (jsonError "Invalid or missing JSON body", 400))
    ∧ (∀ fields,
        some (Json.obj [("message", Json.str "hi"), ("count", Json.num 0)])
          = some (Json.obj fields) →
        ((∀ f ∈ ["message"], fieldMissing fields f = false) →
          get_json_body
              (some (Json.obj [("message", Json.str "hi"), ("count", Json.num 0)]))
              ["message"]
            = .ok (Json.obj fields))
        ∧ (∀ f, List.find? (fun g => fieldMissing fields g) ["message"] = some f →
            get_json_body
                (some (Json.obj [("message", Json.str "hi"), ("count", Json.num 0)]))
                ["message"]
              = .err (jsonError ("Missing required field in body: " ++ f), 400))
        ∧ (∀ f, fieldMissing fields f = true
            ↔ (alistGet fields f = none ∨ alistGet fields f = some Json.null
               ∨ alistGet fields f = some (Json.str ""))))
    ∧ (∀ v,
        some (Json.obj [("message", Json.str "hi"), ("count", Json.num 0)])
          = some v →
        (∀ fields2, v ≠ Json.obj fields2) → v ≠ Json.null →
        (["message"] = ([] : List String) →
          get_json_body
              (some (Json.obj [("message", Json.str "hi"), ("count", Json.num 0)]))
              ["message"]
            = .ok v)
        ∧ (["message"] ≠ ([] : List String) →
          get_json_body
              (some (Json.obj [("message", Json.str "hi"), ("count", Json.num 0)]))
              ["message"]
            = .exc "AttributeError: object has no attribute get")) :=
  get_json_body_spec
    (some (Json.obj [("message", Json.str "hi"), ("count", Json.num 0)]))
    ["message"]

/-- Counterexample for C6: a delete-one-message request missing both
queue_name and receipt_handle gets a 400 naming only queue_name: the error
message does not mention receipt_handle at all, contrary to the claim that
both are named in one response. -/
theorem delete_message_missing_both_cex :
    delete_message beEmpty []
      = ((jsonError "Missing required query parameters: queue_name", 400), [])
    ∧ strHasSub "Missing required query parameters: queue_name"
        "receipt_handle" = false := by
  exact ⟨rfl, rfl⟩

/-- C6 (amended): parameters demanded through the require_query_params
decorator are reported together: whenever at least one is missing the
single 400 message lists exactly the missing ones, in declaration order,
comma-separated, and every missing declared parameter is in that list;
the dynamodb get-item request missing both partition_key_name and
partition_key_value names both in one response; but delete-one demands
only queue_name through the decorator and checks receipt_handle separately
inside the handler, so a request missing both yields a 400 naming only
queue_name (shown by the counterexample). -/
theorem require_params_reports_all_missing (args : List (String × String))
    (names : List String) (h : ∃ n ∈ names, queryMissing args n = true) :
    require_query_params names args
      = some (jsonError ("Missing required query parameters: "
          ++ String.intercalate ", "
               (names.filter (fun n => queryMissing args n))), 400)
    ∧ (∀ n ∈ names, queryMissing args n = true →
        n ∈ names.filter (fun n => queryMissing args n))
    ∧ get_item (fun _ _ => none) [("table_name", "Users")]
        = ((jsonError
             "Missing required query parameters: partition_key_name, partition_key_value",
            400), []) := by
  refine ⟨?_, ?_, by rfl⟩
  · obtain ⟨n, hn, hmiss⟩ := h
    have hne : (names.filter (fun n => queryMissing args n)).isEmpty = false := by
      rw [List.isEmpty_eq_false]
      exact List.ne_nil_of_mem (List.mem_filter.mpr ⟨hn, hmiss⟩)
    simp only [require_query_params, hne]
    simp
  · intro n hn hmiss
    exact List.mem_filter.mpr ⟨hn, hmiss⟩

/-- Witness for C6 (amended): no parameters supplied against required
names queue_name and receipt_handle — both are reported in one message. -/
theorem require_params_reports_all_missing_witness :
    require_query_params ["queue_name", "receipt_handle"] []
      = some (jsonError ("Missing required query parameters: "
          ++ String.intercalate ", "
               (["queue_name", "receipt_handle"].filter
                  (fun n => queryMissing [] n))), 400)
    ∧ (∀ n ∈ ["queue_name", "receipt_handle"], queryMissing [] n = true →
        n ∈ ["queue_name", "receipt_handle"].filter (fun n => queryMissing [] n))
    ∧ get_item (fun _ _ => none) [("table_name", "Users")]
        = ((jsonError
             "Missing required query parameters: partition_key_name, partition_key_value",
            400), []) :=
  require_params_reports_all_missing [] ["queue_name", "receipt_handle"]
    ⟨"queue_name", by decide, by rfl⟩

/-- Counterexample for C10: a create-subscription body where topic_arn is
present but empty: the handler treats the empty value as absent, performs
the topic listing to resolve topic_name, and subscribes with the resolved
ARN — so a present topic_arn did not suppress resolution, contrary to the
claim. -/
theorem subscription_empty_topic_arn_cex :
    create_subscription beOneTopic (some (Json.obj
        [("type", Json.str "sqs"), ("topic_arn", Json.str ""),
         ("topic_name", Json.str "t"), ("queue_arn", Json.str "qa")]))
      = ((Json.obj [("subscription_arn", Json.str "s-1"),
                    ("topic_arn", Json.str "arn:aws:sns:us-east-1:1:t"),
                    ("protocol", Json.str "sqs"),
                    ("endpoint", Json.str "qa")], 201),
         [BackendCall.listTopics,
          BackendCall.snsSubscribe (Json.str "arn:aws:sns:us-east-1:1:t")
            "sqs" (Json.str "qa") true]) := by
  rfl

/-- C10 (amended): in create-subscription a caller-supplied native address
given as a non-empty string takes precedence: when topic_arn is a
non-empty string, topic_name is ignored and no topic listing happens; for
type sqs, when queue_arn is a non-empty string, queue_name is ignored and
no queue lookup happens; the subscribe call and the 201 response use the
supplied values verbatim.  Likewise for type lambda with a non-empty
string lambda_arn.  Falsy (empty or null) supplied values are treated as
absent. -/
theorem subscription_truthy_arn_precedence (be : Backend)
    (fields fields2 : List (String × Json)) (ta qa la : String)
    (h1 : pyGet fields "type" = some (Json.str "sqs"))
    (h2 : pyGet fields "topic_arn" = some (Json.str ta)) (h3 : ta ≠ "")
    (h4 : pyGet fields "queue_arn" = some (Json.str qa)) (h5 : qa ≠ "")
    (g1 : pyGet fields2 "type" = some (Json.str "lambda"))
    (g2 : pyGet fields2 "topic_arn" = some (Json.str ta))
    (g4 : pyGet fields2 "lambda_arn" = some (Json.str la)) (g5 : la ≠ "") :
    create_subscription be (some (Json.obj fields))
      = ((Json.obj [("subscription_arn", Json.str be.subscriptionArn),
                    ("topic_arn", Json.str ta), ("protocol", Json.str "sqs"),
                    ("endpoint", Json.str qa)], 201),
         [BackendCall.snsSubscribe (Json.str ta) "sqs" (Json.str qa) true])
    ∧ create_subscription be (some (Json.obj fields2))
      = ((Json.obj [("subscription_arn", Json.str be.subscriptionArn),
                    ("topic_arn", Json.str ta), ("protocol", Json.str "lambda"),
                    ("endpoint", Json.str la)], 201),
         [BackendCall.snsSubscribe (Json.str ta) "lambda" (Json.str la) false]) := by
  constructor
  · unfold create_subscription get_json_body snsSubscribeCall subscribe201
    simp [h1, h2, h3, h4, h5, isSubTypeValid, optTruthy, Json.truthy]
  · unfold create_subscription get_json_body snsSubscribeCall subscribe201
    simp [g1, g2, h3, g4, g5, isSubTypeValid, optTruthy, Json.truthy]

/-- Witness for C10 (amended): bodies that also carry topic_name and
queue_name values, which are ignored in favour of the supplied ARNs. -/
theorem subscription_truthy_arn_precedence_witness :
    create_subscription beOneTopic (some (Json.obj
        [("type", Json.str "sqs"), ("topic_arn", Json.str "my-ta"),
         ("topic_name", Json.str "ignored"), ("queue_arn", Json.str "my-qa"),
         ("queue_name", Json.str "ignored-q")]))
      = ((Json.obj [("subscription_arn", Json.str "s-1"),
                    ("topic_arn", Json.str "my-ta"),
                    ("protocol", Json.str "sqs"),
                    ("endpoint", Json.str "my-qa")], 201),
         [BackendCall.snsSubscribe (Json.str "my-ta") "sqs" (Json.str "my-qa") true])
    ∧ create_subscription beOneTopic (some (Json.obj
        [("type", Json.str "lambda"), ("topic_arn", Json.str "my-ta"),
         ("lambda_arn", Json.str "my-la")]))
      = ((Json.obj [("subscription_arn", Json.str "s-1"),
                    ("topic_arn", Json.str "my-ta"),
                    ("protocol", Json.str "lambda"),
                    ("endpoint", Json.str "my-la")], 201),
         [BackendCall.snsSubscribe (Json.str "my-ta") "lambda" (Json.str "my-la") false]) :=
  subscription_truthy_arn_precedence beOneTopic
    [("type", Json.str "sqs"), ("topic_arn", Json.str "my-ta"),
     ("topic_name", Json.str "ignored"), ("queue_arn", Json.str "my-qa"),
     ("queue_name", Json.str "ignored-q")]
    [("type", Json.str "lambda"), ("topic_arn", Json.str "my-ta"),
     ("lambda_arn", Json.str "my-la")]
    "my-ta" "my-qa" "my-la"
    (by rfl) (by rfl) (by decide) (by rfl) (by decide)
    (by rfl) (by rfl) (by rfl) (by decide)

end ApiLocalStack
